import Mathlib

/-! Calendar model: proleptic Gregorian calendar on rata-die integers
(days since 1970-01-01).  This embeds the date arithmetic that
`pandas.Timestamp` / `datetime.timedelta` perform in the source. -/

/-- Days strictly before year `y` (proleptic Gregorian), counted from
0001-01-01 (so `daysBefore 1 = 0`). -/
def daysBefore (y : Int) : Int :=
  365 * (y - 1) + (y - 1) / 4 - (y - 1) / 100 + (y - 1) / 400

/-- First guess of the year containing rata-die day `r` (1970-01-01 is day 0). -/
def yearGuess (r : Int) : Int := (400 * (r + 719162) - 400) / 146097 + 1

/-- Calendar year of rata-die day `r`. -/
def yearOf (r : Int) : Int :=
  if r + 719162 < daysBefore (yearGuess r + 1) then yearGuess r else yearGuess r + 1

/-- Gregorian leap-year test. -/
def leapB (y : Int) : Bool := (y % 4 == 0 && !(y % 100 == 0)) || y % 400 == 0

/-- Calendar (month, day-of-month) of rata-die day `r`. -/
def monthDay (r : Int) : Int × Int :=
  let y := yearOf r
  let d := r + 719162 - daysBefore y
  let f : Int := if leapB y then 1 else 0
  if d < 31 then (1, d + 1)
  else if d < 59 + f then (2, d - 30)
  else if d < 90 + f then (3, d - 58 - f)
  else if d < 120 + f then (4, d - 89 - f)
  else if d < 151 + f then (5, d - 119 - f)
  else if d < 181 + f then (6, d - 150 - f)
  else if d < 212 + f then (7, d - 180 - f)
  else if d < 243 + f then (8, d - 211 - f)
  else if d < 273 + f then (9, d - 242 - f)
  else if d < 304 + f then (10, d - 272 - f)
  else if d < 334 + f then (11, d - 303 - f)
  else (12, d - 333 - f)

def monthOf (r : Int) : Int := (monthDay r).1

def dayOf (r : Int) : Int := (monthDay r).2

/-- Weekday of rata-die day `r`, Monday = 0 (Python `date.weekday`). -/
def wday (r : Int) : Int := (r + 3) % 7

/-! Forecaster embedding (src/streamlit_app.py, tab 3, lines 316-491) -/

/-- One historical observation of the selected store: a calendar date
(rata die) and a visitor count (`DATE_KST`, `visitors`). -/
structure VisitRecord where
  date : Int
  visitors : ℚ
deriving DecidableEq

/-- One row of the full `visits_df` dataframe: store name, date, count. -/
structure DfRow where
  dep_name : String
  date : Int
  visitors : ℚ
deriving DecidableEq

/-- The `visitors` column of the series (line 335). -/
def visits (s : List VisitRecord) : List ℚ := s.map (·.visitors)

/-- Embeds `Series.mean` for a non-empty series; the empty case (where pandas
yields NaN) is modelled separately by `meanOpt`. -/
def mean (l : List ℚ) : ℚ := l.sum / l.length

/-- The last `n` entries of a list (`visits[-n:]`). -/
def lastN (n : Nat) (l : List ℚ) : List ℚ := l.drop (l.length - n)

/-- Embeds `dates.max()` (line 346) for a non-empty series. -/
def last_date (s : List VisitRecord) : Int :=
  match s with
  | [] => 0
  | h :: t => t.foldl (fun m r => max m r.date) h.date

/-- Embeds `[last_date + timedelta(days=i) for i in range(1, 31)]` (line 347). -/
def future_dates (s : List VisitRecord) : List Int :=
  (List.range 30).map (fun (i : Nat) => last_date s + ((i : Int) + 1))

/-- Embeds `visits.mean()` (line 343). -/
def overall_avg (s : List VisitRecord) : ℚ := mean (visits s)

/-- Embeds `visits[-30:].mean() if len(visits) >= 30 else overall_avg` (line 356). -/
def recent_avg (s : List VisitRecord) : ℚ :=
  if 30 ≤ (visits s).length then mean (lastN 30 (visits s)) else overall_avg s

/-- Embeds `store_data.groupby(weekday)['visitors'].mean().to_dict()` (line 353):
`none` when the weekday never occurs (key absent from the dict). -/
def weekday_avgs (s : List VisitRecord) (w : Int) : Option ℚ :=
  let l := s.filter (fun r => wday r.date == w)
  if l.isEmpty then none else some (mean (visits l))

/-- Records of the same calendar month as `last_year_date` with
day-of-month within 5 (lines 360-366). -/
def similar_dates (s : List VisitRecord) (future_date : Int) : List VisitRecord :=
  let last_year_date := future_date - 365
  s.filter (fun r =>
    monthOf r.date == monthOf last_year_date &&
    decide (|dayOf r.date - dayOf last_year_date| ≤ 5))

/-- Weight 2.0 for the target weekday, 1.0 otherwise (lines 370-373). -/
def weight_for (future_date : Int) (r : VisitRecord) : ℚ :=
  if wday r.date = wday future_date then 2 else 1

/-- Embeds `np.average(similar_dates['visitors'], weights=similar_dates['weight'])`
(line 376). -/
def base_pred_similar (sim : List VisitRecord) (future_date : Int) : ℚ :=
  (sim.map (fun r => weight_for future_date r * r.visitors)).sum /
    (sim.map (weight_for future_date)).sum

/-- Embeds `1.1 ** (future_date.year - last_year_date.year)` (lines 379-380). -/
def trend_factor (future_date : Int) : ℚ :=
  (11 / 10 : ℚ) ^ (yearOf future_date - yearOf (future_date - 365))

/-- Seasonal constant: 1.3 for Dec 20-25, 1.2 for Jul/Aug 15-30, else 1.0
(lines 383-387 and 402-406). -/
def seasonal_factor (future_date : Int) : ℚ :=
  if monthOf future_date = 12 ∧ 20 ≤ dayOf future_date ∧ dayOf future_date ≤ 25 then
    13 / 10
  else if (monthOf future_date = 7 ∨ monthOf future_date = 8) ∧
      15 ≤ dayOf future_date ∧ dayOf future_date ≤ 30 then
    12 / 10
  else 1

/-- The per-date prediction before the floor correction (lines 358-408). -/
def pred_raw (s : List VisitRecord) (future_date : Int) : ℚ :=
  if (similar_dates s future_date).isEmpty then
    (match weekday_avgs s (wday future_date) with
      | some a => a
      | none => recent_avg s * (9 / 10)) * seasonal_factor future_date
  else
    base_pred_similar (similar_dates s future_date) future_date *
      trend_factor future_date * seasonal_factor future_date

/-- The emitted prediction after the floor correction (lines 410-412). -/
def pred_value (s : List VisitRecord) (future_date : Int) : ℚ :=
  if pred_raw s future_date < recent_avg s * (1 / 2) then recent_avg s * (8 / 10)
  else pred_raw s future_date

/-- The list `future_preds` built by the loop (lines 350-414). -/
def future_preds (s : List VisitRecord) : List ℚ :=
  (future_dates s).map (pred_value s)

/-- The `future_data` frame: forecast dates paired with predictions
(lines 423-427). -/
def forecast (s : List VisitRecord) : List (Int × ℚ) :=
  (future_dates s).map (fun fd => (fd, pred_value s fd))

/-- Header of `future_data[['date', 'visitors']].to_csv(index=False)`
(line 485): the date column and the predicted-count column, which the
source labels `visitors`. -/
def csv_header : List String := ["date", "visitors"]

/-- Structural model of the CSV download (lines 485-491): the header row
and one data row per forecast day. -/
def csv_export (s : List VisitRecord) : List String × List (Int × ℚ) :=
  (csv_header, forecast s)

/-- Insertion step of `sort_values('DATE_KST')`. -/
def insertByDate (r : DfRow) : List DfRow → List DfRow
  | [] => [r]
  | h :: t => if r.date ≤ h.date then r :: h :: t else h :: insertByDate r t

/-- Embeds `store_data.sort_values('DATE_KST')` (line 328). -/
def sortByDate : List DfRow → List DfRow
  | [] => []
  | h :: t => insertByDate h (sortByDate t)

/-- Embeds `visits_df[visits_df['DEP_NAME'] == pred_store]` sorted by date
(lines 327-328): note line 327 reads the unfiltered `visits_df`, not
`filtered_visits`. -/
def store_data (visits_df : List DfRow) (pred_store : String) : List VisitRecord :=
  (sortByDate (visits_df.filter (fun r => r.dep_name == pred_store))).map
    (fun r => { date := r.date, visitors := r.visitors })

/-- The forecast the prediction tab computes, as a function of the whole
app state: the sidebar date range (lines 78-93) and store multiselect
(lines 97-104) are parameters of the app but the tab reads only
`visits_df` and `pred_store` (line 327). -/
def app_forecast (visits_df : List DfRow) (date_range : Int × Int)
    (selected_stores : List String) (pred_store : String) : List (Int × ℚ) :=
  forecast (store_data visits_df pred_store)

/-! NaN/NaT-propagating model of the same loop

pandas raises no error on an empty series: `visits.mean()` is NaN,
`dates.max()` is NaT, `NaT + timedelta` is NaT, the fields `NaT.month` /
`NaT.day` and `NaT.weekday()` are NaN, every comparison against NaN is
false, and NaN propagates through arithmetic.  `none` models NaN/NaT. -/

/-- Embeds `Series.mean`: NaN (`none`) on an empty series. -/
def meanOpt (l : List ℚ) : Option ℚ := if l.isEmpty then none else some (mean l)

/-- Embeds `dates.max()`: NaT (`none`) on an empty series. -/
def last_dateOpt (s : List VisitRecord) : Option Int :=
  if s.isEmpty then none else some (last_date s)

/-- Embeds `last_date + timedelta(days=i)`: NaT stays NaT. -/
def future_datesOpt (s : List VisitRecord) : List (Option Int) :=
  (List.range 30).map (fun (i : Nat) => (last_dateOpt s).map (· + ((i : Int) + 1)))

/-- Embeds `recent_avg` with NaN propagation. -/
def recent_avgOpt (s : List VisitRecord) : Option ℚ :=
  if 30 ≤ (visits s).length then meanOpt (lastN 30 (visits s)) else meanOpt (visits s)

/-- Embeds `similar_dates` when the target may be NaT: `month == NaT.month` is a
comparison against NaN and is false for every row. -/
def similar_datesOpt (s : List VisitRecord) : Option Int → List VisitRecord
  | none => s.filter (fun _ => false)
  | some fd => similar_dates s fd

/-- Embeds `seasonal_factor` when the target may be NaT: `NaT.month == 12` is
false, so the factor stays 1.0. -/
def seasonal_factorOpt : Option Int → ℚ
  | none => 1
  | some fd => seasonal_factor fd

/-- The loop body (lines 358-412) with NaN/NaT propagation: NaT target
dates select no similar rows, `NaT.weekday()` (NaN) is never a key of
`weekday_avgs`, NaN spreads through products, and the floor comparison
against a NaN side is false, leaving the value unchanged. -/
def pred_valueOpt (s : List VisitRecord) (fd : Option Int) : Option ℚ :=
  let sim := similar_datesOpt s fd
  let raw : Option ℚ :=
    if sim.isEmpty then
      let base : Option ℚ :=
        match fd.map wday with
        | some w =>
          match weekday_avgs s w with
          | some a => some a
          | none => (recent_avgOpt s).map (· * (9 / 10))
        | none => (recent_avgOpt s).map (· * (9 / 10))
      base.map (· * seasonal_factorOpt fd)
    else
      match fd with
      | some d => some (base_pred_similar sim d * trend_factor d * seasonal_factor d)
      | none => none
  match raw, recent_avgOpt s with
  | some v, some ra => some (if v < ra * (1 / 2) then ra * (8 / 10) else v)
  | some v, none => some v
  | none, _ => none

/-- The forecast points the loop emits, with NaN/NaT propagation. -/
def forecastOpt (s : List VisitRecord) : List (Option Int × Option ℚ) :=
  (future_datesOpt s).map (fun fd => (fd, pred_valueOpt s fd))

/-! Calendar lemmas -/

/-- `yearOf r` is the year whose day range contains `r`. -/
theorem yearOf_charact (r : Int) :
    daysBefore (yearOf r) ≤ r + 719162 ∧ r + 719162 < daysBefore (yearOf r + 1) := by
  unfold yearOf yearGuess daysBefore
  split <;> constructor <;> omega

theorem daysBefore_mono {a b : Int} (h : a ≤ b) : daysBefore a ≤ daysBefore b := by
  unfold daysBefore; omega

theorem daysBefore_year_len (y : Int) :
    365 ≤ daysBefore (y + 1) - daysBefore y ∧ daysBefore (y + 1) - daysBefore y ≤ 366 := by
  unfold daysBefore; omega

/-- Going exactly 365 days back changes the calendar year by 0 or 1, never 2. -/
theorem yearOf_sub_365 (r : Int) :
    yearOf r - yearOf (r - 365) = 0 ∨ yearOf r - yearOf (r - 365) = 1 := by
  obtain ⟨h1, h2⟩ := yearOf_charact r
  obtain ⟨h3, h4⟩ := yearOf_charact (r - 365)
  have hlt : yearOf (r - 365) < yearOf r + 1 := by
    by_contra hc
    push_neg at hc
    have := daysBefore_mono hc
    omega
  have hge : yearOf r - 1 < yearOf (r - 365) + 1 := by
    by_contra hc
    push_neg at hc
    have h5 := daysBefore_mono hc
    have h6 := daysBefore_year_len (yearOf r - 1)
    have h7 : yearOf r - 1 + 1 = yearOf r := by omega
    rw [h7] at h6
    omega
  omega

/-- Validation of the calendar model against Python `datetime` on sample
dates (rata die, year, month, day, weekday). -/
theorem calendar_model_checks :
    (yearOf (-719162), monthDay (-719162), wday (-719162)) = (1, (1, 1), 0) ∧
    (yearOf (-365), monthDay (-365), wday (-365)) = (1969, (1, 1), 2) ∧
    (yearOf 0, monthDay 0, wday 0) = (1970, (1, 1), 3) ∧
    (yearOf 58, monthDay 58) = (1970, (2, 28)) ∧
    (yearOf 59, monthDay 59) = (1970, (3, 1)) ∧
    (yearOf 364, monthDay 364, wday 364) = (1970, (12, 31), 3) ∧
    (yearOf 365, monthDay 365, wday 365) = (1971, (1, 1), 4) ∧
    (yearOf 11016, monthDay 11016, wday 11016) = (2000, (2, 29), 1) ∧
    (yearOf 20088, monthDay 20088, wday 20088) = (2024, (12, 31), 1) ∧
    (yearOf 20089, monthDay 20089, wday 20089) = (2025, (1, 1), 2) ∧
    (yearOf 399308, monthDay 399308, wday 399308) = (3063, (4, 9), 3) := by
  decide

/-! Helper lemmas -/

theorem mean_nonneg {l : List ℚ} (h : ∀ x ∈ l, 0 ≤ x) : 0 ≤ mean l := by
  unfold mean
  exact div_nonneg (List.sum_nonneg h) (by positivity)

theorem recent_avg_nonneg {s : List VisitRecord} (h : ∀ r ∈ s, 0 ≤ r.visitors) :
    0 ≤ recent_avg s := by
  have hv : ∀ x ∈ visits s, 0 ≤ x := by
    intro x hx
    obtain ⟨r, hr, rfl⟩ := List.mem_map.mp hx
    exact h r hr
  unfold recent_avg overall_avg
  split
  · exact mean_nonneg fun x hx => hv x (List.drop_subset _ _ hx)
  · exact mean_nonneg hv

theorem weights_sum_pos (future_date : Int) :
    ∀ l : List VisitRecord, l ≠ [] →
      0 < (l.map (weight_for future_date)).sum := by
  intro l hl
  match l with
  | [] => exact absurd rfl hl
  | h :: t =>
    have h1 : (1 : ℚ) ≤ weight_for future_date h := by
      unfold weight_for; split <;> norm_num
    have h2 : 0 ≤ (t.map (weight_for future_date)).sum := by
      refine List.sum_nonneg ?_
      intro x hx
      obtain ⟨r, _, rfl⟩ := List.mem_map.mp hx
      unfold weight_for; split <;> norm_num
    simp only [List.map_cons, List.sum_cons]
    linarith

/-! Claim theorems -/

/-- Claim C1: for every non-empty input series the forecaster emits exactly
30 forecast points, one per loop iteration, whose dates are the 30
consecutive calendar days following the last observed date
(`last_date + 1` through `last_date + 30`), in strictly increasing order. -/
theorem C1_thirty_consecutive_days (s : List VisitRecord) (hs : s ≠ []) :
    (forecast s).length = 30 ∧
    (forecast s).map Prod.fst =
      (List.range 30).map (fun (i : Nat) => last_date s + ((i : Int) + 1)) ∧
    ((forecast s).map Prod.fst).Pairwise (· < ·) := by
  have hmap : (forecast s).map Prod.fst =
      (List.range 30).map (fun (i : Nat) => last_date s + ((i : Int) + 1)) := by
    simp [forecast, future_dates, List.map_map]
  refine ⟨by simp [forecast, future_dates], hmap, ?_⟩
  rw [hmap, List.pairwise_map]
  refine (List.pairwise_lt_range 30).imp ?_
  intro a b hab
  omega

/-- Witness for C1 at a one-record series. -/
theorem C1_thirty_consecutive_days_w :
    (forecast [{ date := 0, visitors := 100 }]).length = 30 ∧
    (forecast [{ date := 0, visitors := 100 }]).map Prod.fst =
      (List.range 30).map
        (fun (i : Nat) =>
          last_date [{ date := 0, visitors := 100 }] + ((i : Int) + 1)) ∧
    ((forecast [{ date := 0, visitors := 100 }]).map Prod.fst).Pairwise (· < ·) :=
  C1_thirty_consecutive_days [{ date := 0, visitors := 100 }] (by decide)

/-- Claim C2 counterexample: on the empty series the loop does not fail at
all — it runs to completion and emits 30 forecast points (with NaT dates
and NaN predictions), so no error reaches the caller and output is
produced. -/
theorem C2_empty_series_produces_output :
    forecastOpt [] = List.replicate 30 (none, none) := by decide

/-- Claim C2 (amended): on the empty series no error is raised; NaN/NaT
propagation yields exactly 30 forecast points whose dates and predicted
values are all undefined (NaT/NaN). -/
theorem C2_empty_series_nan_points :
    (forecastOpt []).length = 30 ∧
    ∀ p ∈ forecastOpt [], p.1 = none ∧ p.2 = none := by decide

/-- Claim C3: for each target date the similar set is exactly the records
whose calendar month equals that of `last_year_date = target - 365` and
whose day-of-month differs from it by at most 5; when the set is
non-empty, `base_pred` is the mean of the visitor counts weighted 2.0 on
records matching the target's weekday and 1.0 otherwise. -/
theorem C3_similar_records (s : List VisitRecord) (future_date : Int)
    (r : VisitRecord) (hsim : similar_dates s future_date ≠ []) :
    (r ∈ similar_dates s future_date ↔
      r ∈ s ∧ monthOf r.date = monthOf (future_date - 365) ∧
        |dayOf r.date - dayOf (future_date - 365)| ≤ 5) ∧
    base_pred_similar (similar_dates s future_date) future_date =
      ((similar_dates s future_date).map
          (fun x => (if wday x.date = wday future_date then (2 : ℚ) else 1) *
            x.visitors)).sum /
        ((similar_dates s future_date).map
          (fun x => if wday x.date = wday future_date then (2 : ℚ) else 1)).sum := by
  constructor
  · simp [similar_dates, List.mem_filter, and_assoc]
  · rfl

/-- Witness for C3: a series with a record exactly 365 days before the
target, so the similar set is non-empty. -/
theorem C3_similar_records_w :
    (({ date := 0, visitors := 100 } : VisitRecord) ∈
        similar_dates [{ date := 0, visitors := 100 }] 365 ↔
      ({ date := 0, visitors := 100 } : VisitRecord) ∈
          ([{ date := 0, visitors := 100 }] : List VisitRecord) ∧
        monthOf 0 = monthOf (365 - 365) ∧ |dayOf 0 - dayOf (365 - 365)| ≤ 5) ∧
    base_pred_similar (similar_dates [{ date := 0, visitors := 100 }] 365) 365 =
      ((similar_dates [{ date := 0, visitors := 100 }] 365).map
          (fun x => (if wday x.date = wday 365 then (2 : ℚ) else 1) *
            x.visitors)).sum /
        ((similar_dates [{ date := 0, visitors := 100 }] 365).map
          (fun x => if wday x.date = wday 365 then (2 : ℚ) else 1)).sum :=
  C3_similar_records [{ date := 0, visitors := 100 }] 365
    { date := 0, visitors := 100 } (by decide)

/-- Claim C4 counterexample: the trend exponent
`future_date.year - last_year_date.year` can never be 2: fixed 365-day
subtraction always lands in the same or the immediately preceding
calendar year. -/
theorem C4_exponent_never_two :
    (∃ future_date : Int, yearOf future_date - yearOf (future_date - 365) = 2) =
      False := by
  simp only [eq_iff_iff, iff_false]
  rintro ⟨d, hd⟩
  rcases yearOf_sub_365 d with h | h <;> omega

/-- Claim C4 (amended): in the similar-records branch the prediction
before floor correction equals `base_pred * trend_factor *
seasonal_factor` with `trend_factor = 1.1 ^ (target.year -
last_year_date.year)`; the exponent is always 0 or 1 — 0 can occur at a
year boundary (e.g. Dec 31, 2024, a leap year), but never 2 — and the
seasonal factor is 1.3 on Dec 20-25, 1.2 on Jul/Aug 15-30, else 1.0. -/
theorem C4_trend_and_seasonal (s : List VisitRecord) (future_date : Int)
    (hsim : similar_dates s future_date ≠ []) :
    pred_raw s future_date =
      base_pred_similar (similar_dates s future_date) future_date *
        trend_factor future_date * seasonal_factor future_date ∧
    trend_factor future_date =
      (11 / 10 : ℚ) ^ (yearOf future_date - yearOf (future_date - 365)) ∧
    (yearOf future_date - yearOf (future_date - 365) = 0 ∨
      yearOf future_date - yearOf (future_date - 365) = 1) ∧
    yearOf 20088 - yearOf (20088 - 365) = 0 ∧
    seasonal_factor future_date =
      (if monthOf future_date = 12 ∧ 20 ≤ dayOf future_date ∧
          dayOf future_date ≤ 25 then 13 / 10
        else if (monthOf future_date = 7 ∨ monthOf future_date = 8) ∧
            15 ≤ dayOf future_date ∧ dayOf future_date ≤ 30 then 12 / 10
        else 1) := by
  refine ⟨?_, rfl, yearOf_sub_365 future_date, by decide, rfl⟩
  rw [pred_raw, if_neg]
  simpa [List.isEmpty_iff] using hsim

/-- Witness for C4 at a series with a non-empty similar set. -/
theorem C4_trend_and_seasonal_w :
    pred_raw [{ date := 0, visitors := 100 }] 365 =
      base_pred_similar (similar_dates [{ date := 0, visitors := 100 }] 365) 365 *
        trend_factor 365 * seasonal_factor 365 ∧
    trend_factor 365 = (11 / 10 : ℚ) ^ (yearOf 365 - yearOf (365 - 365)) ∧
    (yearOf 365 - yearOf (365 - 365) = 0 ∨ yearOf 365 - yearOf (365 - 365) = 1) ∧
    yearOf 20088 - yearOf (20088 - 365) = 0 ∧
    seasonal_factor 365 =
      (if monthOf 365 = 12 ∧ 20 ≤ dayOf 365 ∧ dayOf 365 ≤ 25 then 13 / 10
        else if (monthOf 365 = 7 ∨ monthOf 365 = 8) ∧
            15 ≤ dayOf 365 ∧ dayOf 365 ≤ 30 then 12 / 10
        else 1) :=
  C4_trend_and_seasonal [{ date := 0, visitors := 100 }] 365 (by decide)

/-- Claim C5: when no similar records exist, the prediction before floor
correction is `base_pred * seasonal_factor` with no trend factor, where
`base_pred` is the weekday-profile mean for the target weekday when that
weekday occurs in the history and `recent_avg * 0.9` otherwise. -/
theorem C5_fallback_branch (s : List VisitRecord) (future_date : Int)
    (hsim : similar_dates s future_date = []) :
    pred_raw s future_date =
      (match weekday_avgs s (wday future_date) with
        | some a => a
        | none => recent_avg s * (9 / 10)) * seasonal_factor future_date ∧
    ((weekday_avgs s (wday future_date)).isSome ↔
      ∃ r ∈ s, wday r.date = wday future_date) ∧
    ∀ a, weekday_avgs s (wday future_date) = some a →
      a = mean (visits (s.filter (fun r => wday r.date == wday future_date))) := by
  refine ⟨?_, ?_, ?_⟩
  · rw [pred_raw, if_pos]
    simp [List.isEmpty_iff, hsim]
  · rw [weekday_avgs]
    simp only [List.isEmpty_iff]
    split
    · rename_i hnil
      rw [List.filter_eq_nil_iff] at hnil
      simp only [Option.isSome_none, false_iff, beq_iff_eq] at hnil ⊢
      simpa using hnil
    · rename_i hnil
      rw [List.filter_eq_nil_iff] at hnil
      push_neg at hnil
      simp only [Option.isSome_some, true_iff]
      obtain ⟨r, hr, hw⟩ := hnil
      exact ⟨r, hr, by simpa using hw⟩
  · intro a ha
    rw [weekday_avgs] at ha
    split at ha
    · exact absurd ha (by simp)
    · simpa using ha.symm

/-- Witness for C5: target 100 days after a lone 1970-01-01 record, whose
365-days-back date (April 1969) matches no record's month. -/
theorem C5_fallback_branch_w :
    pred_raw [{ date := 0, visitors := 100 }] 100 =
      (match weekday_avgs [{ date := 0, visitors := 100 }] (wday 100) with
        | some a => a
        | none => recent_avg [{ date := 0, visitors := 100 }] * (9 / 10)) *
        seasonal_factor 100 ∧
    ((weekday_avgs [{ date := 0, visitors := 100 }] (wday 100)).isSome ↔
      ∃ r ∈ ([{ date := 0, visitors := 100 }] : List VisitRecord),
        wday r.date = wday 100) ∧
    ∀ a, weekday_avgs [{ date := 0, visitors := 100 }] (wday 100) = some a →
      a = mean (visits (([{ date := 0, visitors := 100 }] : List VisitRecord).filter
        (fun r => wday r.date == wday 100))) :=
  C5_fallback_branch [{ date := 0, visitors := 100 }] 100 (by decide)

/-- Claim C6: each emitted prediction is the raw prediction unless that is
below `recent_avg * 0.5`, in which case it is overridden to
`recent_avg * 0.8`; hence (for non-negative visitor counts) every emitted
prediction is at least `recent_avg * 0.5`, where `recent_avg` is the mean
of the last 30 records when at least 30 exist and the overall mean
otherwise. -/
theorem C6_floor_law (s : List VisitRecord) (hpos : ∀ r ∈ s, 0 ≤ r.visitors) :
    recent_avg s =
      (if 30 ≤ s.length then mean (lastN 30 (visits s)) else mean (visits s)) ∧
    ∀ p ∈ forecast s,
      p.2 = (if pred_raw s p.1 < recent_avg s * (1 / 2)
              then recent_avg s * (8 / 10) else pred_raw s p.1) ∧
      recent_avg s * (1 / 2) ≤ p.2 := by
  have hra := recent_avg_nonneg hpos
  constructor
  · rw [recent_avg, overall_avg]
    simp [visits]
  · intro p hp
    obtain ⟨fd, _, rfl⟩ := List.mem_map.mp hp
    refine ⟨rfl, ?_⟩
    show recent_avg s * (1 / 2) ≤ pred_value s fd
    rw [pred_value]
    split
    · linarith
    · rename_i hlt
      push_neg at hlt
      linarith

/-- Witness for C6 at a one-record series with non-negative count. -/
theorem C6_floor_law_w :
    recent_avg [{ date := 0, visitors := 100 }] =
      (if 30 ≤ ([{ date := 0, visitors := 100 }] : List VisitRecord).length
        then mean (lastN 30 (visits [{ date := 0, visitors := 100 }]))
        else mean (visits [{ date := 0, visitors := 100 }])) ∧
    ∀ p ∈ forecast [{ date := 0, visitors := 100 }],
      p.2 = (if pred_raw [{ date := 0, visitors := 100 }] p.1 <
              recent_avg [{ date := 0, visitors := 100 }] * (1 / 2)
              then recent_avg [{ date := 0, visitors := 100 }] * (8 / 10)
              else pred_raw [{ date := 0, visitors := 100 }] p.1) ∧
      recent_avg [{ date := 0, visitors := 100 }] * (1 / 2) ≤ p.2 :=
  C6_floor_law [{ date := 0, visitors := 100 }] (by decide)

/-- Claim C7: the tabular export is a header row followed by one data row
per forecast day (30 of them), and each data row has exactly the two
columns: the forecast date and the predicted count (which the source
labels `visitors`). -/
theorem C7_export_shape (s : List VisitRecord) (hs : s ≠ []) :
    (csv_export s).1 = ["date", "visitors"] ∧
    (csv_export s).1.length = 2 ∧
    (csv_export s).2 = forecast s ∧
    (csv_export s).2.length = 30 :=
  ⟨rfl, rfl, rfl, by simp [csv_export, forecast, future_dates]⟩

/-- Witness for C7 at a one-record series. -/
theorem C7_export_shape_w :
    (csv_export [{ date := 0, visitors := 100 }]).1 = ["date", "visitors"] ∧
    (csv_export [{ date := 0, visitors := 100 }]).1.length = 2 ∧
    (csv_export [{ date := 0, visitors := 100 }]).2 =
      forecast [{ date := 0, visitors := 100 }] ∧
    (csv_export [{ date := 0, visitors := 100 }]).2.length = 30 :=
  C7_export_shape [{ date := 0, visitors := 100 }] (by decide)

/-- Claim C8: in the similar-records branch every weight is 1.0 or 2.0 and
the weight sum is strictly positive, so the weighted-mean division never
divides by zero. -/
theorem C8_weight_sum_positive (s : List VisitRecord) (future_date : Int)
    (hsim : similar_dates s future_date ≠ []) :
    (∀ r ∈ similar_dates s future_date,
      weight_for future_date r = 1 ∨ weight_for future_date r = 2) ∧
    0 < ((similar_dates s future_date).map (weight_for future_date)).sum := by
  refine ⟨?_, weights_sum_pos future_date _ hsim⟩
  intro r _
  rw [weight_for]
  split
  · right; rfl
  · left; rfl

/-- Witness for C8 at a non-empty similar set. -/
theorem C8_weight_sum_positive_w :
    (∀ r ∈ similar_dates [{ date := 0, visitors := 100 }] 365,
      weight_for 365 r = 1 ∨ weight_for 365 r = 2) ∧
    0 < ((similar_dates [{ date := 0, visitors := 100 }] 365).map
      (weight_for 365)).sum :=
  C8_weight_sum_positive [{ date := 0, visitors := 100 }] 365 (by decide)

/-- Claim C9: the forecast pipeline is deterministic — identical input
data and store selection give identical forecast points and identical
export, there being no randomness or external state in the computation. -/
theorem C9_determinism (df1 df2 : List DfRow) (p1 p2 : String)
    (hdf : df1 = df2) (hp : p1 = p2) :
    forecast (store_data df1 p1) = forecast (store_data df2 p2) ∧
    csv_export (store_data df1 p1) = csv_export (store_data df2 p2) := by
  subst hdf
  subst hp
  exact ⟨rfl, rfl⟩

/-- Witness for C9 at a concrete dataframe. -/
theorem C9_determinism_w :
    forecast (store_data [{ dep_name := "A", date := 0, visitors := 100 }] "A") =
      forecast (store_data [{ dep_name := "A", date := 0, visitors := 100 }] "A") ∧
    csv_export (store_data [{ dep_name := "A", date := 0, visitors := 100 }] "A") =
      csv_export (store_data [{ dep_name := "A", date := 0, visitors := 100 }] "A") :=
  C9_determinism [{ dep_name := "A", date := 0, visitors := 100 }]
    [{ dep_name := "A", date := 0, visitors := 100 }] "A" "A" rfl rfl

/-- Claim C10: the prediction tab reads the unfiltered dataset, so the
forecast depends only on the selected store's full record set: the
sidebar date range and store multiselect have no influence, and records
of other stores never affect the output. -/
theorem C10_reads_unfiltered_store_series (df df2 : List DfRow)
    (range1 range2 : Int × Int) (sel1 sel2 : List String) (pred_store : String)
    (h : df.filter (fun r => r.dep_name == pred_store) =
      df2.filter (fun r => r.dep_name == pred_store)) :
    app_forecast df range1 sel1 pred_store =
      app_forecast df2 range2 sel2 pred_store ∧
    ∀ extra : List DfRow, (∀ e ∈ extra, e.dep_name ≠ pred_store) →
      app_forecast (df ++ extra) range1 sel1 pred_store =
        app_forecast df range1 sel1 pred_store := by
  constructor
  · unfold app_forecast store_data
    rw [h]
  · intro extra hextra
    have hnil : extra.filter (fun r => r.dep_name == pred_store) = [] := by
      rw [List.filter_eq_nil_iff]
      intro e he
      simpa using hextra e he
    unfold app_forecast store_data
    rw [List.filter_append, hnil, List.append_nil]

/-- Witness for C10 at concrete data and filter selections. -/
theorem C10_reads_unfiltered_store_series_w :
    app_forecast [{ dep_name := "A", date := 0, visitors := 100 }] (0, 1) ["A"] "A" =
      app_forecast [{ dep_name := "A", date := 0, visitors := 100 }] (2, 3) [] "A" ∧
    ∀ extra : List DfRow, (∀ e ∈ extra, e.dep_name ≠ "A") →
      app_forecast ([{ dep_name := "A", date := 0, visitors := 100 }] ++ extra)
          (0, 1) ["A"] "A" =
        app_forecast [{ dep_name := "A", date := 0, visitors := 100 }] (0, 1) ["A"] "A" :=
  C10_reads_unfiltered_store_series [{ dep_name := "A", date := 0, visitors := 100 }]
    [{ dep_name := "A", date := 0, visitors := 100 }] (0, 1) (2, 3) ["A"] [] "A" rfl
